import Mathlib

/- Verification development for the Smart Panel middleware
   (device-connection supervisor, playout-protocol codec, command router
   and control-channel suspend/resume machine), shallowly embedded from
   the TypeScript sources:
     src/services/CasparCGService.ts  (codec, pending call, reconnect)
     src/main/main.ts                 (command router and device handlers)
     src/types/config.ts              (SupabaseService control channel, VMixService)
     src/services/MeldStudioService.ts

   Buffers and wire text are modelled as List Char; JS strings are Lean
   Strings whose contents are inspected through List Char. -/

/-! ## Playout device protocol codec (CasparCGService.processBuffer) -/

/-- The AMCP line terminator. Responses have the shape `NNN message\r\n`. -/
def crlf : List Char := ['\r', '\n']

/-- JS `String.prototype.split('\r\n')`: non-overlapping, left-to-right.
    `splitCRLF l` is the list of separator-free segments of `l`. -/
def splitCRLF : List Char → List (List Char)
  | [] => [[]]
  | [c] => [[c]]
  | c1 :: c2 :: rest =>
    if c1 = '\r' ∧ c2 = '\n' then [] :: splitCRLF rest
    else (splitCRLF (c2 :: rest)).modifyHead (fun h => c1 :: h)

/-- Whether a character list contains no CRLF pair (i.e. is a single segment). -/
def noCRLF : List Char → Bool
  | [] => true
  | [_] => true
  | c1 :: c2 :: rest => !(c1 = '\r' && c2 = '\n') && noCRLF (c2 :: rest)

/-- Inverse of `splitCRLF`: rejoin the segments with the terminator. -/
def joinCRLF : List (List Char) → List Char
  | [] => []
  | [p] => p
  | p :: rest => p ++ crlf ++ joinCRLF rest

/-- Numeric value of a decimal digit character. -/
def digitVal (c : Char) : Nat := c.toNat - '0'.toNat

/-- Accumulating digit parser: consumes leading decimal digits, stops at the
    first non-digit; `none` when no digit was consumed (JS `NaN`). -/
def parseDigitsAux : List Char → Option Nat → Option Nat
  | [], acc => acc
  | c :: rest, acc =>
    if c.isDigit then parseDigitsAux rest (some ((acc.getD 0) * 10 + digitVal c))
    else acc

/-- JS `parseInt(s, 10)`: skip leading spaces, optional sign, leading digits;
    `none` models `NaN`. -/
def jsParseInt (s : List Char) : Option Int :=
  let t := s.dropWhile (fun c => c = ' ')
  match t with
  | '-' :: rest => (parseDigitsAux rest none).map (fun n => -(n : Int))
  | '+' :: rest => (parseDigitsAux rest none).map (fun n => (n : Int))
  | _ => (parseDigitsAux t none).map (fun n => (n : Int))

/-- A decoded response frame: `{ code, message }`. `code = none` models the
    `NaN` produced by `parseInt` on a malformed line. -/
structure Frame where
  code : Option Int
  message : List Char
deriving Repr, DecidableEq

/-- Parsing of one response line, as in `processBuffer`:
    `code = parseInt(line.substring(0,3), 10)`, `message = line.substring(4)`. -/
def parseResponseLine (line : List Char) : Frame :=
  { code := jsParseInt (line.take 3), message := line.drop 4 }

/-- `CasparCGService.processBuffer` on a given accumulation buffer: split on
    CRLF; if there are at least two parts and the last is empty, a complete
    response has arrived: decode the FIRST line and clear the WHOLE buffer;
    otherwise leave the buffer untouched and yield nothing. -/
def processBuffer (buffer : List Char) : Option Frame × List Char :=
  let lines := splitCRLF buffer
  if 2 ≤ lines.length ∧ lines.getLast? = some [] then
    (some (parseResponseLine (lines.headD [])), [])
  else
    (none, buffer)

/-- The socket `data` handler folded over a sequence of chunks: each chunk is
    appended to the accumulation buffer and `processBuffer` is run. Returns
    every decoded frame in order together with the final buffer. -/
def feedChunks : List (List Char) → List Char → List Frame × List Char
  | [], buf => ([], buf)
  | chunk :: rest, buf =>
    match processBuffer (buf ++ chunk) with
    | (some f, buf2) =>
      let out := feedChunks rest buf2
      (f :: out.1, out.2)
    | (none, buf2) => feedChunks rest buf2

/-! ### Codec lemmas -/

theorem splitCRLF_ne_nil (l : List Char) : splitCRLF l ≠ [] := by
  induction l using splitCRLF.induct with
  | case1 => simp [splitCRLF]
  | case2 c => simp [splitCRLF]
  | case3 c1 c2 rest h ih =>
    simp only [splitCRLF, if_pos h]
    exact List.cons_ne_nil _ _
  | case4 c1 c2 rest h ih =>
    simp only [splitCRLF, if_neg h]
    intro hc
    exact ih (by simpa using congrArg List.length hc)

theorem noCRLF_splitCRLF (l : List Char) (h : noCRLF l = true) :
    splitCRLF l = [l] := by
  induction l using noCRLF.induct with
  | case1 => rfl
  | case2 c => rfl
  | case3 c1 c2 rest ih =>
    simp only [noCRLF, Bool.and_eq_true, Bool.not_eq_true'] at h
    have hne : ¬ (c1 = '\r' ∧ c2 = '\n') := by
      intro hp
      simp [hp.1, hp.2] at h
    simp only [splitCRLF, if_neg hne, ih h.2, List.modifyHead]

theorem processBuffer_noCRLF (buffer : List Char) (h : noCRLF buffer = true) :
    processBuffer buffer = (none, buffer) := by
  simp [processBuffer, noCRLF_splitCRLF buffer h]

theorem noCRLF_append_left (a b : List Char) (h : noCRLF (a ++ b) = true) :
    noCRLF a = true := by
  induction a using noCRLF.induct with
  | case1 => rfl
  | case2 c => rfl
  | case3 c1 c2 rest ih =>
    simp only [List.cons_append, noCRLF, Bool.and_eq_true] at h ⊢
    exact ⟨h.1, ih h.2⟩

theorem noCRLF_snoc_cr (s : List Char) (h : noCRLF s = true) :
    noCRLF (s ++ ['\r']) = true := by
  induction s using noCRLF.induct with
  | case1 => rfl
  | case2 c => simp [noCRLF]
  | case3 c1 c2 rest ih =>
    simp only [noCRLF, Bool.and_eq_true] at h
    simp only [List.cons_append, noCRLF, Bool.and_eq_true]
    exact ⟨h.1, ih h.2⟩

theorem noCRLF_take (s : List Char) (n : Nat) (h : noCRLF s = true) :
    noCRLF (s.take n) = true := by
  induction s using noCRLF.induct generalizing n with
  | case1 => simp [noCRLF]
  | case2 c =>
    cases n with
    | zero => rfl
    | succ m => simp [noCRLF, List.take]
  | case3 c1 c2 rest ih =>
    cases n with
    | zero => rfl
    | succ m =>
      cases m with
      | zero => rfl
      | succ k =>
        simp only [noCRLF, Bool.and_eq_true] at h
        simp only [List.take, noCRLF]
        have := ih (k + 1) h.2
        simp only [List.take] at this
        simp [this, h.1]

/-- Every proper prefix of a well-formed `s ++ CRLF` wire image is CRLF-free. -/
theorem properPrefix_noCRLF (p q s : List Char)
    (hpq : p ++ q = s ++ crlf) (hq : q ≠ []) (hs : noCRLF s = true) :
    noCRLF p = true := by
  have hlen : p.length + q.length = s.length + 2 := by
    have := congrArg List.length hpq
    simpa [crlf] using this
  have hqlen : 1 ≤ q.length := by
    cases q with
    | nil => exact absurd rfl hq
    | cons a t => simp
  have hp : p = (s ++ crlf).take p.length := by
    rw [← hpq, List.take_left]
  rcases Nat.lt_or_ge p.length (s.length + 1) with hlt | hge
  · have hle : p.length ≤ s.length := Nat.lt_succ_iff.mp hlt
    rw [hp, List.take_append_of_le_length hle]
    exact noCRLF_take s p.length hs
  · have heq : p.length = s.length + 1 := by omega
    have hsplit : s ++ crlf = (s ++ ['\r']) ++ ['\n'] := by simp [crlf]
    have hlen2 : (s ++ ['\r']).length = s.length + 1 := by simp
    rw [hp, heq, hsplit, ← hlen2, List.take_left]
    exact noCRLF_snoc_cr s hs

/-- Splitting a single CRLF-free line followed by the terminator. -/
theorem splitCRLF_line_crlf (s : List Char) (hs : noCRLF s = true) :
    splitCRLF (s ++ crlf) = [s, []] := by
  induction s using noCRLF.induct with
  | case1 => simp [crlf, splitCRLF]
  | case2 c =>
    have hne : ¬ (c = '\r' ∧ '\r' = '\n') := by
      intro hc
      exact absurd hc.2 (by decide)
    simp [crlf, splitCRLF, hne]
  | case3 c1 c2 rest ih =>
    simp only [noCRLF, Bool.and_eq_true, Bool.not_eq_true'] at hs
    have hne : ¬ (c1 = '\r' ∧ c2 = '\n') := by
      intro hp
      simp [hp.1, hp.2] at hs
    simp only [List.cons_append, List.append_assoc]
    rw [show c1 :: c2 :: (rest ++ crlf) = c1 :: (c2 :: (rest ++ crlf)) from rfl]
    simp only [splitCRLF, if_neg hne]
    have := ih hs.2
    simp only [List.cons_append] at this
    rw [this]
    rfl

/-- Decoding a complete single status line clears the buffer and yields its parse. -/
theorem processBuffer_line_crlf (s : List Char) (hs : noCRLF s = true) :
    processBuffer (s ++ crlf) = (some (parseResponseLine s), []) := by
  simp [processBuffer, splitCRLF_line_crlf s hs]

theorem feedChunks_flatten_nil (chunks : List (List Char))
    (h : chunks.flatten = []) : feedChunks chunks [] = ([], []) := by
  induction chunks with
  | nil => rfl
  | cons chunk rest ih =>
    simp only [List.flatten_cons, List.append_eq_nil] at h
    simp [feedChunks, h.1, processBuffer, splitCRLF, ih h.2]

/-- While the accumulated bytes contain no terminator, the data handler
    extracts nothing and the buffer keeps every received byte. -/
theorem feedChunks_partial (chunks : List (List Char)) (p : List Char)
    (h : noCRLF (p ++ chunks.flatten) = true) :
    feedChunks chunks p = ([], p ++ chunks.flatten) := by
  induction chunks generalizing p with
  | nil => simp [feedChunks]
  | cons chunk rest ih =>
    have hassoc : p ++ (chunk :: rest).flatten = (p ++ chunk) ++ rest.flatten := by
      simp [List.flatten_cons]
    rw [hassoc] at h
    have hbuf : noCRLF (p ++ chunk) = true := noCRLF_append_left _ _ h
    simp only [feedChunks, processBuffer_noCRLF _ hbuf]
    rw [ih (p ++ chunk) h, hassoc]

/-- Core of the framing property: if the bytes remaining to arrive complete a
    single CRLF-terminated line, the fold decodes exactly that line. -/
theorem feedChunks_single_line (s : List Char) (hs : noCRLF s = true) :
    ∀ (chunks : List (List Char)) (p : List Char),
      p ++ chunks.flatten = s ++ crlf → p ≠ s ++ crlf →
      feedChunks chunks p = ([parseResponseLine s], []) := by
  intro chunks
  induction chunks with
  | nil =>
    intro p hflat hne
    simp only [List.flatten_nil, List.append_nil] at hflat
    exact absurd hflat hne
  | cons chunk rest ih =>
    intro p hflat hne
    have hassoc : (p ++ chunk) ++ rest.flatten = s ++ crlf := by
      simpa [List.flatten_cons, List.append_assoc] using hflat
    by_cases hdone : p ++ chunk = s ++ crlf
    · have hrest : rest.flatten = [] := by
        have := hassoc
        rw [hdone] at this
        exact (List.append_right_eq_self).mp this
      have hpb : processBuffer (p ++ chunk) = (some (parseResponseLine s), []) := by
        rw [hdone]
        exact processBuffer_line_crlf s hs
      simp [feedChunks, hpb, feedChunks_flatten_nil rest hrest]
    · have hqne : rest.flatten ≠ [] := by
        intro hq
        rw [hq, List.append_nil] at hassoc
        exact hdone hassoc
      have hbuf : noCRLF (p ++ chunk) = true :=
        properPrefix_noCRLF _ _ s hassoc hqne hs
      simp only [feedChunks, processBuffer_noCRLF _ hbuf]
      exact ih (p ++ chunk) hassoc hdone

/-- C5. For a CRLF-free status line `S` whose bytes, followed by the CRLF
    terminator, arrive split arbitrarily across successive socket `data`
    callbacks, the decoder yields exactly one frame, equal to parsing `S`,
    and clears the accumulation buffer; before the terminator has fully
    arrived no frame is produced and the buffer retains every received byte
    (no byte of the not-yet-complete frame is consumed). -/
theorem c5_framing_fragmentation (s : List Char) (chunks : List (List Char))
    (hs : noCRLF s = true) (hchunks : chunks.flatten = s ++ crlf) :
    feedChunks chunks [] = ([parseResponseLine s], []) ∧
    (∀ k, (chunks.take k).flatten ≠ s ++ crlf →
      feedChunks (chunks.take k) [] = ([], (chunks.take k).flatten)) := by
  constructor
  · refine feedChunks_single_line s hs chunks [] (by simpa using hchunks) ?_
    intro h
    have : (s ++ crlf).length = 0 := by rw [← h]; rfl
    simp [crlf] at this
  · intro k hne
    have hpre : (chunks.take k).flatten ++ (chunks.drop k).flatten = s ++ crlf := by
      rw [← List.flatten_append, List.take_append_drop, hchunks]
    have hqne : (chunks.drop k).flatten ≠ [] := by
      intro hq
      rw [hq, List.append_nil] at hpre
      exact hne hpre
    have hbuf : noCRLF ((chunks.take k).flatten) = true :=
      properPrefix_noCRLF _ _ s hpre hqne hs
    have := feedChunks_partial (chunks.take k) [] (by simpa using hbuf)
    simpa using this

/-- Witness for C5: the line `201 PLAY OK` delivered in four fragments. -/
theorem c5_framing_fragmentation_witness :
    noCRLF ("201 PLAY OK".toList) = true ∧
    (["2".toList, "01 PLA".toList, "Y OK\r".toList, "\n".toList] :
        List (List Char)).flatten = "201 PLAY OK".toList ++ crlf ∧
    feedChunks ["2".toList, "01 PLA".toList, "Y OK\r".toList, "\n".toList] [] =
      ([parseResponseLine ("201 PLAY OK".toList)], []) :=
  ⟨by decide, by decide,
    (c5_framing_fragmentation ("201 PLAY OK".toList)
      ["2".toList, "01 PLA".toList, "Y OK\r".toList, "\n".toList]
      (by decide) (by decide)).1⟩

theorem getLast?_cons_ne {α : Type} (a : α) (l : List α) (h : l ≠ []) :
    (a :: l).getLast? = l.getLast? := by
  cases l with
  | nil => exact absurd rfl h
  | cons b t => exact List.getLast?_cons_cons

theorem modifyHead_length {α : Type} (f : α → α) (l : List α) :
    (l.modifyHead f).length = l.length := by
  cases l <;> simp [List.modifyHead]

theorem getLast?_modifyHead_two {α : Type} (f : α → α) (l : List α)
    (h : 2 ≤ l.length) : (l.modifyHead f).getLast? = l.getLast? := by
  match l with
  | [] => simp at h
  | [a] => simp at h
  | a :: b :: t =>
    simp only [List.modifyHead]
    rw [List.getLast?_cons_cons, List.getLast?_cons_cons]

/-- A buffer that ends with the terminator always splits into at least two
    parts, the last of which is empty (so `processBuffer` fires). -/
theorem splitCRLF_snoc_crlf (m : List Char) :
    2 ≤ (splitCRLF (m ++ crlf)).length ∧
      (splitCRLF (m ++ crlf)).getLast? = some [] := by
  induction m using splitCRLF.induct with
  | case1 => decide
  | case2 c =>
    have hne : ¬ (c = '\r' ∧ '\r' = '\n') := fun hc => absurd hc.2 (by decide)
    simp [crlf, splitCRLF, hne]
  | case3 c1 c2 rest h ih =>
    have hshape : (c1 :: c2 :: rest) ++ crlf = c1 :: c2 :: (rest ++ crlf) := by
      simp
    rw [hshape]
    simp only [splitCRLF, if_pos h]
    have hne : splitCRLF (rest ++ crlf) ≠ [] := splitCRLF_ne_nil _
    refine ⟨?_, ?_⟩
    · simp only [List.length_cons]
      have hpos : 0 < (splitCRLF (rest ++ crlf)).length := List.length_pos.mpr hne
      omega
    · rw [getLast?_cons_ne _ _ hne]
      exact ih.2
  | case4 c1 c2 rest h ih =>
    have ih2 : 2 ≤ (splitCRLF (c2 :: (rest ++ crlf))).length ∧
        (splitCRLF (c2 :: (rest ++ crlf))).getLast? = some [] := by
      simpa [List.cons_append] using ih
    have hshape : (c1 :: c2 :: rest) ++ crlf = c1 :: c2 :: (rest ++ crlf) := by
      simp
    rw [hshape]
    simp only [splitCRLF, if_neg h]
    constructor
    · rw [modifyHead_length]
      exact ih2.1
    · rw [getLast?_modifyHead_two _ _ ih2.1]
      exact ih2.2

/-- `joinCRLF` is a left inverse of `splitCRLF`. -/
theorem joinCRLF_splitCRLF (l : List Char) : joinCRLF (splitCRLF l) = l := by
  induction l using splitCRLF.induct with
  | case1 => rfl
  | case2 c => rfl
  | case3 c1 c2 rest h ih =>
    simp only [splitCRLF, if_pos h]
    obtain ⟨q, t, hqt⟩ : ∃ q t, splitCRLF rest = q :: t := by
      cases hsp : splitCRLF rest with
      | nil => exact absurd hsp (splitCRLF_ne_nil rest)
      | cons q t => exact ⟨q, t, rfl⟩
    rw [hqt]
    rw [hqt] at ih
    simp only [joinCRLF, List.nil_append]
    rw [ih, h.1, h.2]
    rfl
  | case4 c1 c2 rest h ih =>
    simp only [splitCRLF, if_neg h]
    obtain ⟨q, t, hqt⟩ : ∃ q t, splitCRLF (c2 :: rest) = q :: t := by
      cases hsp : splitCRLF (c2 :: rest) with
      | nil => exact absurd hsp (splitCRLF_ne_nil _)
      | cons q t => exact ⟨q, t, rfl⟩
    rw [hqt] at ih ⊢
    simp only [List.modifyHead]
    cases t with
    | nil =>
      simp only [joinCRLF] at ih ⊢
      rw [ih]
    | cons q2 t2 =>
      simp only [joinCRLF] at ih ⊢
      rw [List.cons_append, List.cons_append, ih]

/-- Rejoining a part list whose last element is empty produces a byte string
    that ends with the terminator. -/
theorem joinCRLF_ends_crlf (parts : List (List Char))
    (hlen : 2 ≤ parts.length) (hlast : parts.getLast? = some []) :
    ∃ m, joinCRLF parts = m ++ crlf := by
  induction parts with
  | nil => simp at hlen
  | cons p rest ih =>
    cases rest with
    | nil => simp at hlen
    | cons q t =>
      cases t with
      | nil =>
        have hq : q = [] := by
          have := hlast
          rw [List.getLast?_cons_cons] at this
          simpa using this
        subst hq
        exact ⟨p, by simp [joinCRLF]⟩
      | cons q2 t2 =>
        have hlast2 : (q :: q2 :: t2).getLast? = some [] := by
          rw [List.getLast?_cons_cons] at hlast
          exact hlast
        obtain ⟨m, hm⟩ := ih (by simp) hlast2
        refine ⟨p ++ crlf ++ m, ?_⟩
        simp only [joinCRLF] at hm ⊢
        rw [hm]
        simp [List.append_assoc]

/-- Decidable test for the condition under which `processBuffer` extracts a
    frame: the buffer ends with the CRLF terminator. -/
def endsWithCRLF (l : List Char) : Bool :=
  decide (l.reverse.take 2 = ['\n', '\r'])

theorem endsWithCRLF_iff (l : List Char) :
    endsWithCRLF l = true ↔ ∃ m, l = m ++ crlf := by
  constructor
  · intro h
    have htake : l.reverse.take 2 = ['\n', '\r'] := by
      simpa [endsWithCRLF] using h
    refine ⟨(l.reverse.drop 2).reverse, ?_⟩
    have hrev : l.reverse = ['\n', '\r'] ++ l.reverse.drop 2 := by
      conv_lhs => rw [← List.take_append_drop 2 l.reverse]
      rw [htake]
    have := congrArg List.reverse hrev
    simpa [crlf] using this
  · rintro ⟨m, rfl⟩
    have hrev : (m ++ crlf).reverse = ['\n', '\r'] ++ m.reverse := by
      simp [crlf]
    have hlen : (['\n', '\r'] : List Char).length = 2 := rfl
    simp only [endsWithCRLF, hrev, decide_eq_true_eq]
    rw [← hlen, List.take_left]

/-- The text before the first CRLF of a buffer (JS `lines[0]`). -/
def firstLine : List Char → List Char
  | [] => []
  | [c] => [c]
  | c1 :: c2 :: rest =>
    if c1 = '\r' ∧ c2 = '\n' then [] else c1 :: firstLine (c2 :: rest)

theorem splitCRLF_headD_firstLine (l : List Char) :
    (splitCRLF l).headD [] = firstLine l := by
  induction l using splitCRLF.induct with
  | case1 => rfl
  | case2 c => rfl
  | case3 c1 c2 rest h ih =>
    simp [splitCRLF, firstLine, if_pos h]
  | case4 c1 c2 rest h ih =>
    simp only [splitCRLF, firstLine, if_neg h]
    obtain ⟨q, t, hqt⟩ : ∃ q t, splitCRLF (c2 :: rest) = q :: t := by
      cases hsp : splitCRLF (c2 :: rest) with
      | nil => exact absurd hsp (splitCRLF_ne_nil _)
      | cons q t => exact ⟨q, t, rfl⟩
    rw [hqt] at ih ⊢
    simp only [List.modifyHead, List.headD] at ih ⊢
    rw [ih]

/-- C10. `processBuffer` keys solely on whether the buffer ends with the
    terminator: if it does, only the FIRST line becomes a frame and the whole
    buffer is cleared (any further complete or partial frames after the first
    terminator are discarded); if any bytes follow the final terminator, no
    frame at all is extracted, even when a complete terminated frame sits at
    the front of the buffer. -/
theorem c10_first_line_whole_buffer (buffer : List Char) :
    (endsWithCRLF buffer = true →
      processBuffer buffer = (some (parseResponseLine (firstLine buffer)), [])) ∧
    (endsWithCRLF buffer = false →
      processBuffer buffer = (none, buffer)) ∧
    processBuffer ("200 A".toList ++ crlf ++ "400 B".toList ++ crlf) =
      (some (parseResponseLine ("200 A".toList)), []) ∧
    processBuffer ("200 A".toList ++ crlf ++ "tail".toList) =
      (none, "200 A".toList ++ crlf ++ "tail".toList) := by
  refine ⟨?_, ?_, by decide, by decide⟩
  · intro hends
    obtain ⟨m, rfl⟩ := (endsWithCRLF_iff _).mp hends
    have hcond := splitCRLF_snoc_crlf m
    simp only [processBuffer, if_pos (And.intro hcond.1 hcond.2)]
    rw [splitCRLF_headD_firstLine]
  · intro hends
    by_cases hcond : 2 ≤ (splitCRLF buffer).length ∧
        (splitCRLF buffer).getLast? = some []
    · obtain ⟨m, hm⟩ := joinCRLF_ends_crlf (splitCRLF buffer) hcond.1 hcond.2
      rw [joinCRLF_splitCRLF] at hm
      have : endsWithCRLF buffer = true := (endsWithCRLF_iff _).mpr ⟨m, hm⟩
      rw [this] at hends
      cases hends
    · simp only [processBuffer, if_neg hcond]

/-- Witness for C10: a terminated buffer is decoded and cleared; an
    unterminated one is left untouched. -/
theorem c10_first_line_whole_buffer_witness :
    endsWithCRLF ("201 OK".toList ++ crlf) = true ∧
    processBuffer ("201 OK".toList ++ crlf) =
      (some (parseResponseLine (firstLine ("201 OK".toList ++ crlf))), []) ∧
    endsWithCRLF ("201 OK".toList) = false ∧
    processBuffer ("201 OK".toList) = (none, "201 OK".toList) :=
  ⟨by decide,
    (c10_first_line_whole_buffer ("201 OK".toList ++ crlf)).1 (by decide),
    by decide,
    (c10_first_line_whole_buffer ("201 OK".toList)).2.1 (by decide)⟩

/-! ## CasparCG pending call (CasparCGService.sendCommand / data handler) -/

/-- State of one playout-device connection relevant to command issuing:
    the single `pendingResolve`/`pendingReject` slot (identified by a call
    id), the accumulation buffer, and the bytes written to the socket.
    `nextId` numbers successive calls. -/
structure CasparState where
  connected : Bool
  pending : Option Nat
  nextId : Nat
  responseBuffer : List Char
  writes : List (List Char)
deriving Repr, DecidableEq

/-- `CasparCGService.sendCommand`: throw when not connected; otherwise
    install the new call in the pending slot (replacing whatever was there),
    clear the response buffer, and write `command + CRLF` to the socket.
    There is no queueing and no check that the slot is free. -/
def sendCommand (st : CasparState) (command : List Char) :
    Except String CasparState :=
  if st.connected = false then Except.error "CasparCG not connected"
  else Except.ok { st with
    pending := some st.nextId,
    nextId := st.nextId + 1,
    responseBuffer := [],
    writes := st.writes ++ [command ++ crlf] }

/-- The socket `data` handler: append the chunk, run `processBuffer`; a
    decoded frame resolves (clears) the pending slot when one is present. -/
def casparOnData (st : CasparState) (chunk : List Char) :
    CasparState × Option Frame :=
  match processBuffer (st.responseBuffer ++ chunk) with
  | (some f, buf2) =>
    if st.pending.isSome then
      ({ st with responseBuffer := buf2, pending := none }, some f)
    else ({ st with responseBuffer := buf2 }, none)
  | (none, buf2) => ({ st with responseBuffer := buf2 }, none)

/-- The per-call 5 s timeout callback: rejects and clears whatever call is
    pending at the moment it fires. -/
def casparCallTimeout (st : CasparState) : CasparState :=
  if st.pending.isSome then { st with pending := none } else st

/-- Counterexample to C2: from a connected idle state, issue `PLAY 1-1` and
    then, with that call still pending (no frame decoded, no timeout fired),
    issue `STOP 1-1`. The second call is accepted (neither queued nor
    rejected), a SECOND request is written to the socket, and the pending
    slot is silently overwritten with the new call, abandoning the first. -/
theorem c2_single_flight_counterexample :
    sendCommand ⟨true, none, 0, [], []⟩ ("PLAY 1-1".toList) =
      Except.ok ⟨true, some 0, 1, [], ["PLAY 1-1".toList ++ crlf]⟩ ∧
    sendCommand ⟨true, some 0, 1, [], ["PLAY 1-1".toList ++ crlf]⟩
        ("STOP 1-1".toList) =
      Except.ok ⟨true, some 1, 2, [],
        ["PLAY 1-1".toList ++ crlf, "STOP 1-1".toList ++ crlf]⟩ := by
  constructor <;> rfl

/-- C2 (amended): the service keeps a single pending-call SLOT (`pending` is
    an `Option`), but `sendCommand` never inspects it: while a call is
    pending, a second `sendCommand` on a connected service succeeds, writes a
    second request to the socket, and overwrites the slot with the new call
    id, so the first call can no longer be resolved by a decoded frame. -/
theorem c2_single_flight (st : CasparState) (command : List Char) (p : Nat)
    (hconn : st.connected = true) (_hpend : st.pending = some p) :
    sendCommand st command =
      Except.ok { st with
        pending := some st.nextId,
        nextId := st.nextId + 1,
        responseBuffer := [],
        writes := st.writes ++ [command ++ crlf] } ∧
    st.writes.length + 1 =
      (st.writes ++ [command ++ crlf]).length := by
  constructor
  · simp [sendCommand, hconn]
  · simp

/-- Witness for C2 at a concrete pending state. -/
theorem c2_single_flight_witness :
    sendCommand ⟨true, some 0, 1, [], ["PLAY 1-1".toList ++ crlf]⟩
        ("STOP 1-1".toList) =
      Except.ok ⟨true, some 1, 2, [],
        ["PLAY 1-1".toList ++ crlf, "STOP 1-1".toList ++ crlf]⟩ :=
  (c2_single_flight ⟨true, some 0, 1, [], ["PLAY 1-1".toList ++ crlf]⟩
    ("STOP 1-1".toList) 0 rfl rfl).1

/-! ## CasparCG connect promise (CasparCGService.connect) -/

/-- The value a device `connect` promise settles with. -/
structure ConnResult where
  connected : Bool
  error : Option String
deriving Repr, DecidableEq

/-- Promise-relevant state during a CasparCG `connect` call: the socket
    flag, whether (and how) the returned promise has been resolved, and
    whether a reconnect interval is scheduled. -/
structure ConnPromiseState where
  connected : Bool
  promiseResult : Option ConnResult
  reconnectActive : Bool
deriving Repr, DecidableEq

/-- Events the socket can deliver to the handlers registered by `connect`. -/
inductive ConnEvent where
  | connectOk
  | timeoutFire
  | errorEvent (msg : String)
  | closeEvent
deriving Repr, DecidableEq

/-- A JS promise resolves at most once; later resolutions are ignored. -/
def resolveOnce (r : Option ConnResult) (v : ConnResult) : Option ConnResult :=
  match r with
  | some x => some x
  | none => some v

/-- The handlers installed by `CasparCGService.connect`, one case per
    registered callback. The `error` handler logs, clears the connected
    flag and rejects any pending COMMAND call, but never resolves the
    connect promise; the `close` handler (guarded on `_connected`) starts
    reconnection and also never resolves it. -/
def casparConnectStep (st : ConnPromiseState) : ConnEvent → ConnPromiseState
  | ConnEvent.connectOk =>
    { st with
      connected := true,
      promiseResult := resolveOnce st.promiseResult ⟨true, none⟩ }
  | ConnEvent.timeoutFire =>
    { st with
      connected := false,
      promiseResult :=
        resolveOnce st.promiseResult ⟨false, some "Connection timeout"⟩ }
  | ConnEvent.errorEvent _ => { st with connected := false }
  | ConnEvent.closeEvent =>
    if st.connected then
      { st with connected := false, reconnectActive := true }
    else st

/-- State at entry of `connect`: fresh socket, unresolved promise, any
    previous reconnect interval cancelled (`stopReconnect`). -/
def casparConnectInit : ConnPromiseState := ⟨false, none, false⟩

/-- A whole `connect` call under a given sequence of socket events. -/
def runCasparConnect (events : List ConnEvent) : ConnPromiseState :=
  events.foldl casparConnectStep casparConnectInit

theorem resolveOnce_isSome (r : Option ConnResult) (v : ConnResult) :
    (resolveOnce r v).isSome = true := by
  cases r <;> rfl

theorem casparConnectStep_promise (st : ConnPromiseState) (e : ConnEvent) :
    (casparConnectStep st e).promiseResult.isSome = true ↔
      (st.promiseResult.isSome = true ∨
        e = ConnEvent.connectOk ∨ e = ConnEvent.timeoutFire) := by
  cases e with
  | connectOk => simp [casparConnectStep, resolveOnce_isSome]
  | timeoutFire => simp [casparConnectStep, resolveOnce_isSome]
  | errorEvent m => simp [casparConnectStep]
  | closeEvent =>
    by_cases hc : st.connected = true
    · simp [casparConnectStep, hc]
    · simp [casparConnectStep, hc]

theorem runCasparConnect_aux (evs : List ConnEvent) :
    ∀ st : ConnPromiseState,
      ((evs.foldl casparConnectStep st).promiseResult.isSome = true) ↔
        (st.promiseResult.isSome = true ∨
          ConnEvent.connectOk ∈ evs ∨ ConnEvent.timeoutFire ∈ evs) := by
  induction evs with
  | nil => intro st; simp
  | cons e r ih =>
    intro st
    rw [List.foldl_cons, ih, casparConnectStep_promise]
    simp only [List.mem_cons]
    constructor
    · rintro (( h | h | h ) | h | h)
      · exact Or.inl h
      · exact Or.inr (Or.inl (Or.inl h.symm))
      · exact Or.inr (Or.inr (Or.inl h.symm))
      · exact Or.inr (Or.inl (Or.inr h))
      · exact Or.inr (Or.inr (Or.inr h))
    · rintro ( h | ( h | h ) | ( h | h ))
      · exact Or.inl (Or.inl h)
      · exact Or.inl (Or.inr (Or.inl h.symm))
      · exact Or.inr (Or.inl h)
      · exact Or.inl (Or.inr (Or.inr h.symm))
      · exact Or.inr (Or.inr h)

/-- Counterexample to C7: a CasparCG connect attempt whose socket emits an
    `error` (e.g. ECONNREFUSED) and is then closed — the destroyed socket
    never fires its idle timeout — leaves the connect promise unsettled:
    `connect` hangs instead of returning `{connected:false, error}`. -/
theorem c7_connect_settles_counterexample :
    (runCasparConnect
        [ConnEvent.errorEvent "ECONNREFUSED", ConnEvent.closeEvent]
      ).promiseResult = none := by
  rfl

/-- The vMix `connect` (an awaited HTTP fetch inside try/catch): settles on
    every outcome, returning the version on success and the error message on
    failure — it is a total function of the fetch outcome. -/
structure VMixConnStatus where
  connected : Bool
  version : Option String
  error : Option String
deriving Repr, DecidableEq

def vmixConnect (outcome : Except String String) : VMixConnStatus :=
  match outcome with
  | Except.ok v => ⟨true, some v, none⟩
  | Except.error e => ⟨false, none, some e⟩

/-- C7 (amended): `VMixService.connect` settles for every outcome of its
    single awaited fetch; `CasparCGService.connect` settles exactly when the
    connect-success callback or the socket idle-timeout callback runs —
    the socket `error` path never resolves the promise, so an event sequence
    containing neither leaves `connect` unsettled. -/
theorem c7_connect_settlement :
    (∀ events : List ConnEvent,
      (runCasparConnect events).promiseResult.isSome = true ↔
        (ConnEvent.connectOk ∈ events ∨ ConnEvent.timeoutFire ∈ events)) ∧
    (∀ v : String, vmixConnect (Except.ok v) = ⟨true, some v, none⟩) ∧
    (∀ e : String, vmixConnect (Except.error e) = ⟨false, none, some e⟩) ∧
    (runCasparConnect [ConnEvent.connectOk]).promiseResult =
      some ⟨true, none⟩ ∧
    (runCasparConnect [ConnEvent.timeoutFire]).promiseResult =
      some ⟨false, some "Connection timeout"⟩ := by
  refine ⟨?_, fun v => rfl, fun e => rfl, rfl, rfl⟩
  intro events
  rw [runCasparConnect, runCasparConnect_aux]
  simp [casparConnectInit]

/-! ## Reconnect supervisor (startReconnect / stopReconnect / connect) -/

/-- The fixed reconnection interval passed to `setInterval` in
    `startReconnect` (CasparCG, OBS and MeldStudio services alike). -/
def reconnectIntervalMs : Nat := 10000

/-- Supervisor-level state of one socket-based device service: the connected
    flag, whether the reconnect interval is scheduled, the last-known
    configuration, and the configurations passed to successive `connect`
    invocations. -/
structure SupervisorState where
  connected : Bool
  reconnectActive : Bool
  config : Option (String × Nat)
  attempts : List (String × Nat)
deriving Repr, DecidableEq

/-- Events driving the supervisor: an unexpected socket close, a firing of
    the 10 s reconnect interval (with the outcome of the `connect` attempt
    it performs), an explicit `disconnect()`, and an explicit `connect()`. -/
inductive SupEvent where
  | unexpectedClose
  | reconnectTick (attemptSucceeds : Bool)
  | disconnectCall
  | connectCall (cfg : String × Nat) (succeeds : Bool)
deriving Repr, DecidableEq

/-- One supervisor transition, embedded from the service code:
    the `close` handler (guarded on `_connected`) calls `startReconnect`,
    which schedules the interval only when a config is saved and no interval
    exists; the interval callback stops itself when already connected and
    otherwise awaits `connect(this.config)` — and `connect` itself calls
    `stopReconnect()` on entry, so the interval is gone after the first
    attempt regardless of its outcome; `disconnect()` cancels the interval. -/
def supervisorStep (st : SupervisorState) : SupEvent → SupervisorState
  | SupEvent.unexpectedClose =>
    if st.connected then
      { st with
        connected := false,
        reconnectActive := st.reconnectActive || st.config.isSome }
    else st
  | SupEvent.reconnectTick ok =>
    if st.reconnectActive = false then st
    else if st.connected then { st with reconnectActive := false }
    else
      match st.config with
      | some cfg =>
        { st with
          reconnectActive := false,
          connected := ok,
          attempts := st.attempts ++ [cfg] }
      | none => { st with reconnectActive := false }
  | SupEvent.disconnectCall =>
    { st with connected := false, reconnectActive := false }
  | SupEvent.connectCall cfg ok =>
    { st with
      connected := ok,
      reconnectActive := false,
      config := some cfg,
      attempts := st.attempts ++ [cfg] }

/-- A supervisor run over a sequence of events. -/
def runSupervisor (init : SupervisorState) (events : List SupEvent) :
    SupervisorState :=
  events.foldl supervisorStep init

/-- Counterexample to C8: a connected CasparCG service loses its connection
    unexpectedly; the 10 s interval fires once and the reconnect attempt
    fails — afterwards no reconnection is scheduled any more, although the
    connection never succeeded and `disconnect` was never called: the first
    attempt's own call to `connect` cancelled the interval, and a failed
    attempt never reschedules it. -/
theorem c8_reconnect_counterexample :
    runSupervisor ⟨true, false, some ("127.0.0.1", 5250), []⟩
        [SupEvent.unexpectedClose, SupEvent.reconnectTick false] =
      ⟨false, false, some ("127.0.0.1", 5250), [("127.0.0.1", 5250)]⟩ := by
  rfl

/-- C8 (amended): on unexpected loss with a saved config, a reconnect is
    scheduled on the fixed 10 s interval; the tick re-invokes `connect` with
    the last-known configuration; the scheduling stops when the tick finds
    the connection already restored or when `disconnect` is called — and
    ALSO after the first reconnection attempt itself, whatever its outcome,
    because `connect` cancels the interval on entry and a failed attempt
    does not reschedule it. -/
theorem c8_reconnect_schedule :
    reconnectIntervalMs = 10000 ∧
    (∀ st : SupervisorState, st.connected = true → st.config.isSome = true →
      (supervisorStep st SupEvent.unexpectedClose).reconnectActive = true ∧
      (supervisorStep st SupEvent.unexpectedClose).connected = false) ∧
    (∀ (st : SupervisorState) (ok : Bool) (cfg : String × Nat),
      st.reconnectActive = true → st.connected = false →
      st.config = some cfg →
      supervisorStep st (SupEvent.reconnectTick ok) =
        { st with
          reconnectActive := false,
          connected := ok,
          attempts := st.attempts ++ [cfg] }) ∧
    (∀ (st : SupervisorState) (ok : Bool),
      st.reconnectActive = true → st.connected = true →
      supervisorStep st (SupEvent.reconnectTick ok) =
        { st with reconnectActive := false }) ∧
    (∀ st : SupervisorState,
      (supervisorStep st SupEvent.disconnectCall).reconnectActive = false) := by
  refine ⟨rfl, ?_, ?_, ?_, ?_⟩
  · intro st hconn hcfg
    constructor <;> simp [supervisorStep, hconn, hcfg]
  · intro st ok cfg hact hconn hcfg
    simp [supervisorStep, hact, hconn, hcfg]
  · intro st ok hact hconn
    simp [supervisorStep, hact, hconn]
  · intro st
    simp [supervisorStep]

/-- Witness for C8 at concrete states. -/
theorem c8_reconnect_schedule_witness :
    (supervisorStep ⟨true, false, some ("127.0.0.1", 5250), []⟩
        SupEvent.unexpectedClose).reconnectActive = true ∧
    supervisorStep ⟨false, true, some ("127.0.0.1", 5250), []⟩
        (SupEvent.reconnectTick false) =
      ⟨false, false, some ("127.0.0.1", 5250), [("127.0.0.1", 5250)]⟩ := by
  constructor
  · exact (c8_reconnect_schedule.2.1 ⟨true, false, some ("127.0.0.1", 5250), []⟩
      rfl rfl).1
  · exact c8_reconnect_schedule.2.2.1 ⟨false, true, some ("127.0.0.1", 5250), []⟩
      false ("127.0.0.1", 5250) rfl rfl rfl

/-! ## Command router (main.ts handleCommand and device handlers)

    Parameter extraction/marshalling (field-name synonyms, default hosts and
    ports, argument values of the adapter calls) is elided: no claim depends
    on argument values, only on which adapter operations run and which
    response envelopes are emitted. -/

/-- The inbound command envelope delivered by the relay channel. -/
structure Cmd where
  action : String
  params : List (String × String)
  request_id : Option String
  response_channel : Option String
  timestamp : Option Int
deriving Repr, DecidableEq

/-- Lookup of a string parameter by key. -/
def paramStr (params : List (String × String)) (key : String) : Option String :=
  (params.find? (fun kv => kv.1 = key)).map (fun kv => kv.2)

/-- An outbound response payload: `{ request_id, success, error? }`
    (the optional `data` member carries no information any claim needs). -/
structure ResponseMsg where
  request_id : Option String
  success : Bool
  error : Option String
deriving Repr, DecidableEq

/-- Observable effects of routing one command. `respond none msg` is a
    response published on the main channel (the fallback when the command
    carries no `response_channel`); `respond (some ch) msg` goes to the named
    response channel. -/
inductive Effect where
  | adapter (device : String) (op : String)
  | updateStatus
  | respond (channel : Option String) (msg : ResponseMsg)
  | pong (request_id : Option String)
deriving Repr, DecidableEq

def Effect.isAdapter : Effect → Bool
  | Effect.adapter _ _ => true
  | _ => false

def Effect.isRespond : Effect → Bool
  | Effect.respond _ _ => true
  | _ => false

/-- Per-device world fixing the data the handler branches on: the adapter's
    `isConnected()` flag, the result of an explicit `connect` call, and
    whether an awaited device operation rejects (`some msg`) or succeeds. -/
structure AdapterWorld where
  connected : Bool
  connectResult : Bool × Option String
  opThrows : Option String
deriving Repr, DecidableEq

/-- The common shape of every non-connect case in the device handlers:
    `isConnected()` guard failing ⇒ `sendError(requestId!, msg, ch)` at once
    (unconditionally, even without a request id); otherwise the adapter
    operations run and `sendResponse(requestId!, {success:true}, ch)` is sent;
    if an awaited operation rejects, control reaches the surrounding catch,
    which sends an error response ONLY when a request id is present. When an
    operation rejects, later operations of the case are not reached; the
    model attributes the rejection to the first. -/
def guardedOps (device notConnectedMsg : String) (cmd : Cmd) (w : AdapterWorld)
    (ops : List String) : List Effect :=
  if w.connected = false then
    [Effect.respond cmd.response_channel
      ⟨cmd.request_id, false, some notConnectedMsg⟩]
  else
    match w.opThrows with
    | none =>
      ops.map (Effect.adapter device) ++
        [Effect.respond cmd.response_channel ⟨cmd.request_id, true, none⟩]
    | some m =>
      (ops.take 1).map (Effect.adapter device) ++
        (if cmd.request_id.isSome then
          [Effect.respond cmd.response_channel ⟨cmd.request_id, false, some m⟩]
        else [])

/-- The `connect` case shared by all four handlers: run the adapter connect,
    push the aggregated status, and answer with
    `{success: result.connected, error: result.error || null}`. -/
def connectCase (device : String) (cmd : Cmd) (result : Bool × Option String) :
    List Effect :=
  [Effect.adapter device "connect", Effect.updateStatus,
   Effect.respond cmd.response_channel ⟨cmd.request_id, result.1, result.2⟩]

/-- The `default:` arm of each handler switch:
    `sendError(requestId!, "Unknown command: <action>", ch)` unconditionally. -/
def unknownCase (cmd : Cmd) : List Effect :=
  [Effect.respond cmd.response_channel
    ⟨cmd.request_id, false, some ("Unknown command: " ++ cmd.action)⟩]

/-- `handleOBSCommand` (main.ts): one arm per `case` of the switch. -/
def handleOBSCommand (cmd : Cmd) (w : AdapterWorld) : List Effect :=
  if cmd.action = "obs_connect" then connectCase "obs" cmd w.connectResult
  else if cmd.action = "obs_get_scenes" then
    guardedOps "obs" "OBS WebSocket not connected" cmd w ["getScenes"]
  else if cmd.action = "obs_get_current_scene" then
    guardedOps "obs" "OBS WebSocket not connected" cmd w ["getCurrentScene"]
  else if cmd.action = "obs_switch_scene" ∨ cmd.action = "obs_set_scene" then
    guardedOps "obs" "OBS WebSocket not connected" cmd w ["setScene"]
  else if cmd.action = "obs_get_sources" then
    guardedOps "obs" "OBS WebSocket not connected" cmd w ["getSources"]
  else if cmd.action = "obs_show_source" then
    guardedOps "obs" "OBS WebSocket not connected" cmd w
      ["getSceneItemId", "setSourceVisibility"]
  else if cmd.action = "obs_hide_source" then
    guardedOps "obs" "OBS WebSocket not connected" cmd w
      ["getSceneItemId", "setSourceVisibility"]
  else if cmd.action = "obs_source_visibility" then
    guardedOps "obs" "OBS WebSocket not connected" cmd w ["setSourceVisibility"]
  else if cmd.action = "obs_toggle_source" then
    guardedOps "obs" "OBS WebSocket not connected" cmd w ["toggleSource"]
  else if cmd.action = "obs_set_text" then
    guardedOps "obs" "OBS WebSocket not connected" cmd w ["setText"]
  else if cmd.action = "obs_refresh_browser" then
    guardedOps "obs" "OBS WebSocket not connected" cmd w ["refreshBrowser"]
  else if cmd.action = "obs_set_browser_url" then
    guardedOps "obs" "OBS WebSocket not connected" cmd w ["setBrowserUrl"]
  else if cmd.action = "obs_start_streaming" then
    guardedOps "obs" "OBS WebSocket not connected" cmd w ["startStreaming"]
  else if cmd.action = "obs_stop_streaming" then
    guardedOps "obs" "OBS WebSocket not connected" cmd w ["stopStreaming"]
  else if cmd.action = "obs_start_recording" then
    guardedOps "obs" "OBS WebSocket not connected" cmd w ["startRecording"]
  else if cmd.action = "obs_stop_recording" then
    guardedOps "obs" "OBS WebSocket not connected" cmd w ["stopRecording"]
  else if cmd.action = "obs_get_streaming_status" ∨
      cmd.action = "obs_get_stream_status" then
    guardedOps "obs" "OBS WebSocket not connected" cmd w ["getStreamStatus"]
  else if cmd.action = "obs_get_record_status" then
    guardedOps "obs" "OBS WebSocket not connected" cmd w ["getRecordStatus"]
  else unknownCase cmd

/-- `handleVMixCommand` (main.ts). `vmix_transition` dispatches to `cut` or
    `fade` depending on a parameter; the model records it as one operation. -/
def handleVMixCommand (cmd : Cmd) (w : AdapterWorld) : List Effect :=
  if cmd.action = "vmix_connect" then connectCase "vmix" cmd w.connectResult
  else if cmd.action = "vmix_get_state" then
    guardedOps "vmix" "vMix not connected" cmd w ["getState"]
  else if cmd.action = "vmix_show_overlay" then
    guardedOps "vmix" "vMix not connected" cmd w ["showOverlay"]
  else if cmd.action = "vmix_hide_overlay" then
    guardedOps "vmix" "vMix not connected" cmd w ["hideOverlay"]
  else if cmd.action = "vmix_transition" then
    guardedOps "vmix" "vMix not connected" cmd w ["transition"]
  else if cmd.action = "vmix_set_text" then
    guardedOps "vmix" "vMix not connected" cmd w ["setText"]
  else if cmd.action = "vmix_cut" then
    guardedOps "vmix" "vMix not connected" cmd w ["cut"]
  else if cmd.action = "vmix_fade" then
    guardedOps "vmix" "vMix not connected" cmd w ["fade"]
  else if cmd.action = "vmix_start_streaming" then
    guardedOps "vmix" "vMix not connected" cmd w ["startStreaming"]
  else if cmd.action = "vmix_stop_streaming" then
    guardedOps "vmix" "vMix not connected" cmd w ["stopStreaming"]
  else if cmd.action = "vmix_start_recording" then
    guardedOps "vmix" "vMix not connected" cmd w ["startRecording"]
  else if cmd.action = "vmix_stop_recording" then
    guardedOps "vmix" "vMix not connected" cmd w ["stopRecording"]
  else unknownCase cmd

/-- World of the playout-device handler: its operations resolve with a
    decoded `Frame` or reject with an error message (timeout, disconnect
    or write failure). -/
structure CasparWorld where
  connected : Bool
  connectResult : Bool × Option String
  callResult : Except String Frame
deriving Repr

/-- `result.code >= 200 && result.code < 300` from the caspar cases of
    main.ts; a `NaN` code (`none`) compares false on both sides. -/
def casparSuccess (f : Frame) : Bool :=
  match f.code with
  | some c => decide (200 ≤ c) && decide (c < 300)
  | none => false

/-- One non-connect case of `handleCasparCGCommand`: connected guard, then
    the operation resolves with a frame (answered with the 2xx success test)
    or rejects (caught; error response only when a request id is present). -/
def casparOp (cmd : Cmd) (w : CasparWorld) (opName : String) : List Effect :=
  if w.connected = false then
    [Effect.respond cmd.response_channel
      ⟨cmd.request_id, false, some "CasparCG not connected"⟩]
  else
    match w.callResult with
    | Except.ok f =>
      [Effect.adapter "casparcg" opName,
       Effect.respond cmd.response_channel
         ⟨cmd.request_id, casparSuccess f, none⟩]
    | Except.error m =>
      [Effect.adapter "casparcg" opName] ++
        (if cmd.request_id.isSome then
          [Effect.respond cmd.response_channel ⟨cmd.request_id, false, some m⟩]
        else [])

/-- `handleCasparCGCommand` (main.ts). -/
def handleCasparCGCommand (cmd : Cmd) (w : CasparWorld) : List Effect :=
  if cmd.action = "caspar_connect" then
    connectCase "casparcg" cmd w.connectResult
  else if cmd.action = "caspar_play" then casparOp cmd w "play"
  else if cmd.action = "caspar_stop" then casparOp cmd w "stop"
  else if cmd.action = "caspar_load" then casparOp cmd w "load"
  else if cmd.action = "caspar_loadbg" then casparOp cmd w "loadBg"
  else if cmd.action = "caspar_clear" then casparOp cmd w "clear"
  else if cmd.action = "caspar_cg_add" then casparOp cmd w "cgAdd"
  else if cmd.action = "caspar_cg_update" then casparOp cmd w "cgUpdate"
  else if cmd.action = "caspar_cg_stop" then casparOp cmd w "cgStop"
  else if cmd.action = "caspar_cg_next" then casparOp cmd w "cgNext"
  else if cmd.action = "caspar_cg_clear" then casparOp cmd w "cgClear"
  else if cmd.action = "caspar_cg_play" then casparOp cmd w "cgPlay"
  else unknownCase cmd

/-- `handleMeldStudioCommand` (main.ts). -/
def handleMeldStudioCommand (cmd : Cmd) (w : AdapterWorld) : List Effect :=
  if cmd.action = "meld_connect" then connectCase "meldstudio" cmd w.connectResult
  else if cmd.action = "meld_get_session" then
    guardedOps "meldstudio" "MeldStudio not connected" cmd w ["getSession"]
  else if cmd.action = "meld_show_scene" then
    guardedOps "meldstudio" "MeldStudio not connected" cmd w ["showScene"]
  else if cmd.action = "meld_stage_scene" then
    guardedOps "meldstudio" "MeldStudio not connected" cmd w ["stageScene"]
  else if cmd.action = "meld_show_staged" then
    guardedOps "meldstudio" "MeldStudio not connected" cmd w ["showStaged"]
  else if cmd.action = "meld_layer_toggle" then
    guardedOps "meldstudio" "MeldStudio not connected" cmd w ["toggleLayer"]
  else if cmd.action = "meld_set_property" then
    guardedOps "meldstudio" "MeldStudio not connected" cmd w ["setProperty"]
  else if cmd.action = "meld_effect_toggle" then
    guardedOps "meldstudio" "MeldStudio not connected" cmd w ["toggleEffect"]
  else if cmd.action = "meld_toggle_mute" then
    guardedOps "meldstudio" "MeldStudio not connected" cmd w ["toggleMute"]
  else if cmd.action = "meld_set_gain" then
    guardedOps "meldstudio" "MeldStudio not connected" cmd w ["setGain"]
  else if cmd.action = "meld_start_streaming" then
    guardedOps "meldstudio" "MeldStudio not connected" cmd w ["startStreaming"]
  else if cmd.action = "meld_stop_streaming" then
    guardedOps "meldstudio" "MeldStudio not connected" cmd w ["stopStreaming"]
  else if cmd.action = "meld_start_recording" then
    guardedOps "meldstudio" "MeldStudio not connected" cmd w ["startRecording"]
  else if cmd.action = "meld_stop_recording" then
    guardedOps "meldstudio" "MeldStudio not connected" cmd w ["stopRecording"]
  else if cmd.action = "meld_toggle_virtual_camera" then
    guardedOps "meldstudio" "MeldStudio not connected" cmd w
      ["toggleVirtualCamera"]
  else if cmd.action = "meld_media_play" then
    guardedOps "meldstudio" "MeldStudio not connected" cmd w ["mediaPlay"]
  else if cmd.action = "meld_media_pause" then
    guardedOps "meldstudio" "MeldStudio not connected" cmd w ["mediaPause"]
  else if cmd.action = "meld_media_seek" then
    guardedOps "meldstudio" "MeldStudio not connected" cmd w ["mediaSeek"]
  else if cmd.action = "meld_screenshot" then
    guardedOps "meldstudio" "MeldStudio not connected" cmd w ["screenshot"]
  else if cmd.action = "meld_record_clip" then
    guardedOps "meldstudio" "MeldStudio not connected" cmd w ["recordClip"]
  else if cmd.action = "meld_replay_show" then
    guardedOps "meldstudio" "MeldStudio not connected" cmd w ["showReplay"]
  else if cmd.action = "meld_replay_dismiss" then
    guardedOps "meldstudio" "MeldStudio not connected" cmd w ["dismissReplay"]
  else if cmd.action = "meld_stream_event" then
    guardedOps "meldstudio" "MeldStudio not connected" cmd w ["sendStreamEvent"]
  else unknownCase cmd

/-- `action.startsWith(p)`, computed on the character lists. -/
def strStartsWith (s p : String) : Bool := p.toList.isPrefixOf s.toList

/-- The device worlds the dispatcher consults. -/
structure World where
  obs : AdapterWorld
  vmix : AdapterWorld
  caspar : CasparWorld
  meld : AdapterWorld
deriving Repr

/-- `handleCommand` (main.ts): dispatch on the action's namespace. An
    action matching none of the four namespaces falls off the end of the
    function: NOTHING happens, no response is emitted. -/
def handleCommand (cmd : Cmd) (w : World) : List Effect :=
  if strStartsWith cmd.action "obs_" then handleOBSCommand cmd w.obs
  else if strStartsWith cmd.action "vmix_" then handleVMixCommand cmd w.vmix
  else if strStartsWith cmd.action "caspar_" then
    handleCasparCGCommand cmd w.caspar
  else if strStartsWith cmd.action "meld_" then
    handleMeldStudioCommand cmd w.meld
  else []

/-! ## Control-channel state machine (SupabaseService, types/config.ts) -/

/-- `startHeartbeat` interval. -/
def heartbeatIntervalMs : Nat := 30000

/-- `startRetry` interval (the retry-authenticate loop while suspended). -/
def retryIntervalMs : Nat := 60000

/-- Control-session state: the suspend gate, the heartbeat and retry timers,
    whether the realtime channel subscription is alive, and how many times
    `subscribeToCommands` has actually subscribed (resuming must not
    re-subscribe when the channel is still live). -/
structure SessionState where
  suspended : Bool
  suspendReason : Option String
  heartbeatOn : Bool
  retryOn : Bool
  channelAlive : Bool
  subscribeCount : Nat
deriving Repr, DecidableEq

/-- `handleSuspend(reason)`: no-op when already suspended; otherwise set the
    gate, stop the heartbeat, KEEP the channel subscription (so an explicit
    `middleware_enable` can still arrive) and start the 60 s retry loop. -/
def handleSuspend (st : SessionState) (reason : String) : SessionState :=
  if st.suspended then st
  else
    { st with
      suspended := true,
      suspendReason := some reason,
      heartbeatOn := false,
      retryOn := true }

/-- `handleResume()`: no-op when not suspended; otherwise clear the gate,
    stop the retry loop, and — when the channel is still alive — restart the
    heartbeat WITHOUT re-subscribing; with the channel lost it performs a
    full reconnect (authenticate, subscribe anew, heartbeat), modelled with
    the reconnect assumed successful. -/
def handleResume (st : SessionState) : SessionState :=
  if st.suspended = false then st
  else
    let st2 :=
      { st with suspended := false, suspendReason := none, retryOn := false }
    if st2.channelAlive then { st2 with heartbeatOn := true }
    else
      { st2 with
        heartbeatOn := true,
        channelAlive := true,
        subscribeCount := st2.subscribeCount + 1 }

/-- The `broadcast` handler installed by `subscribeToCommands`, embedded
    arm by arm: `middleware_disable` acknowledges (only when a response
    channel is present) and suspends; `middleware_enable` acknowledges
    likewise and resumes; any other command while suspended is refused with
    `Middleware is suspended` — again only when a response channel is
    present — and is NOT forwarded; `ping` answers `pong` plus a response
    and then still falls through to the command callback; everything else
    goes to the callback (`handleCommand`). -/
def onChannelCommand (st : SessionState) (cmd : Cmd) (w : World) :
    List Effect × SessionState :=
  if cmd.action = "middleware_disable" then
    let reason := (paramStr cmd.params "reason").getD "disabled_by_platform"
    (match cmd.response_channel with
      | some ch => [Effect.respond (some ch) ⟨cmd.request_id, true, none⟩]
      | none => [],
     handleSuspend st reason)
  else if cmd.action = "middleware_enable" then
    (match cmd.response_channel with
      | some ch => [Effect.respond (some ch) ⟨cmd.request_id, true, none⟩]
      | none => [],
     handleResume st)
  else if st.suspended then
    (match cmd.response_channel with
      | some ch =>
        [Effect.respond (some ch)
          ⟨cmd.request_id, false, some "Middleware is suspended"⟩]
      | none => [],
     st)
  else if cmd.action = "ping" then
    (Effect.pong cmd.request_id ::
      (match cmd.response_channel with
        | some ch => [Effect.respond (some ch) ⟨cmd.request_id, true, none⟩]
        | none => []) ++ handleCommand cmd w,
     st)
  else (handleCommand cmd w, st)

/-- `sendHeartbeat`'s handling of the RPC result: on success, a payload with
    `active === false` triggers `handleSuspend`; errors and other payloads
    leave the session unchanged. -/
def onHeartbeatResult (st : SessionState) (hbError : Bool)
    (active : Option Bool) (reason : Option String) : SessionState :=
  if hbError then st
  else
    match active with
    | some false => handleSuspend st (reason.getD "disabled_by_platform")
    | _ => st

/-- State effect of `authenticate`: a successful exchange with
    `active = false` suspends; a successful one while suspended resumes. -/
def authStateStep (st : SessionState) (success active : Bool)
    (reason : String) : SessionState :=
  if success = false then st
  else if active = false then handleSuspend st reason
  else if st.suspended then handleResume st
  else st

/-- One firing of the 60 s retry loop: re-authenticate; when that succeeds
    with `active !== false`, `handleResume` is invoked. -/
def onRetryTick (st : SessionState) (success active : Bool)
    (reason : String) : SessionState :=
  let st1 := authStateStep st success active reason
  if success && active then handleResume st1 else st1

/-! ## Known actions per namespace (the case labels of each switch) -/

def obsGuardedActions : List String :=
  ["obs_get_scenes", "obs_get_current_scene", "obs_switch_scene",
   "obs_set_scene", "obs_get_sources", "obs_show_source", "obs_hide_source",
   "obs_source_visibility", "obs_toggle_source", "obs_set_text",
   "obs_refresh_browser", "obs_set_browser_url", "obs_start_streaming",
   "obs_stop_streaming", "obs_start_recording", "obs_stop_recording",
   "obs_get_streaming_status", "obs_get_stream_status",
   "obs_get_record_status"]

def obsKnownActions : List String := "obs_connect" :: obsGuardedActions

def vmixGuardedActions : List String :=
  ["vmix_get_state", "vmix_show_overlay", "vmix_hide_overlay",
   "vmix_transition", "vmix_set_text", "vmix_cut", "vmix_fade",
   "vmix_start_streaming", "vmix_stop_streaming", "vmix_start_recording",
   "vmix_stop_recording"]

def vmixKnownActions : List String := "vmix_connect" :: vmixGuardedActions

def casparGuardedActions : List String :=
  ["caspar_play", "caspar_stop", "caspar_load", "caspar_loadbg",
   "caspar_clear", "caspar_cg_add", "caspar_cg_update", "caspar_cg_stop",
   "caspar_cg_next", "caspar_cg_clear", "caspar_cg_play"]

def casparKnownActions : List String := "caspar_connect" :: casparGuardedActions

def meldGuardedActions : List String :=
  ["meld_get_session", "meld_show_scene", "meld_stage_scene",
   "meld_show_staged", "meld_layer_toggle", "meld_set_property",
   "meld_effect_toggle", "meld_toggle_mute", "meld_set_gain",
   "meld_start_streaming", "meld_stop_streaming", "meld_start_recording",
   "meld_stop_recording", "meld_toggle_virtual_camera", "meld_media_play",
   "meld_media_pause", "meld_media_seek", "meld_screenshot",
   "meld_record_clip", "meld_replay_show", "meld_replay_dismiss",
   "meld_stream_event"]

def meldKnownActions : List String := "meld_connect" :: meldGuardedActions

/-- A sample world in which every device is connected and no operation
    rejects; used by concrete counterexamples and witnesses. -/
def allConnectedWorld : World :=
  ⟨⟨true, (true, none), none⟩, ⟨true, (true, none), none⟩,
   ⟨true, (true, none), Except.ok ⟨some 202, "OK".toList⟩⟩,
   ⟨true, (true, none), none⟩⟩

/-! ## C1: the suspend gate -/

/-- Counterexample to C1: while suspended, a routed `obs_connect` command
    that carries no `response_channel` produces NO response at all (the
    refusal is guarded on `cmd.response_channel`), although the claim
    demands a `CommandResult{success:false}` mentioning suspension for
    every non-`middleware_enable` action. -/
theorem c1_suspend_gate_counterexample :
    onChannelCommand ⟨true, some "disabled_by_platform", false, true, true, 1⟩
        ⟨"obs_connect", [], some "r1", none, none⟩ allConnectedWorld =
      ([], ⟨true, some "disabled_by_platform", false, true, true, 1⟩) := by
  rfl

/-- C1 (amended): while suspended, NO routed command ever reaches a device
    adapter; for actions other than the two control actions
    `middleware_disable` (acknowledged with `success:true`) and
    `middleware_enable`, the router replies
    `{success:false, error:"Middleware is suspended"}` when the command
    carries a `response_channel`, and stays silent when it does not;
    the session state is unchanged. -/
theorem c1_suspend_gate (st : SessionState) (cmd : Cmd) (w : World)
    (hsusp : st.suspended = true) :
    (∀ e ∈ (onChannelCommand st cmd w).1, e.isAdapter = false) ∧
    (cmd.action ≠ "middleware_disable" → cmd.action ≠ "middleware_enable" →
      (onChannelCommand st cmd w).1 =
        (match cmd.response_channel with
          | some ch =>
            [Effect.respond (some ch)
              ⟨cmd.request_id, false, some "Middleware is suspended"⟩]
          | none => []) ∧
      (onChannelCommand st cmd w).2 = st) := by
  by_cases hd : cmd.action = "middleware_disable"
  · refine ⟨?_, fun h => absurd hd h⟩
    simp only [onChannelCommand, if_pos hd]
    cases cmd.response_channel <;> simp [Effect.isAdapter]
  · by_cases he : cmd.action = "middleware_enable"
    · refine ⟨?_, fun _ h => absurd he h⟩
      simp only [onChannelCommand, if_neg hd, if_pos he]
      cases cmd.response_channel <;> simp [Effect.isAdapter]
    · constructor
      · simp only [onChannelCommand, if_neg hd, if_neg he, hsusp, if_pos]
        cases cmd.response_channel <;> simp [Effect.isAdapter]
      · intro _ _
        refine ⟨?_, ?_⟩ <;>
          simp only [onChannelCommand, if_neg hd, if_neg he, hsusp, if_pos]

/-- Witness for C1: a suspended session refusing a routed command that does
    carry a response channel. -/
theorem c1_suspend_gate_witness :
    (∀ e ∈ (onChannelCommand
        ⟨true, some "manual", false, true, true, 1⟩
        ⟨"caspar_play", [], some "r7", some "resp:7", none⟩
        allConnectedWorld).1, e.isAdapter = false) ∧
    (onChannelCommand ⟨true, some "manual", false, true, true, 1⟩
        ⟨"caspar_play", [], some "r7", some "resp:7", none⟩
        allConnectedWorld).1 =
      [Effect.respond (some "resp:7")
        ⟨some "r7", false, some "Middleware is suspended"⟩] := by
  have h := c1_suspend_gate ⟨true, some "manual", false, true, true, 1⟩
    ⟨"caspar_play", [], some "r7", some "resp:7", none⟩ allConnectedWorld rfl
  exact ⟨h.1, ((h.2 (by decide) (by decide)).1)⟩

/-! ## C3: unknown actions -/

theorem handleOBSCommand_unknown (cmd : Cmd) (w : AdapterWorld)
    (h : cmd.action ∉ obsKnownActions) :
    handleOBSCommand cmd w = unknownCase cmd := by
  simp only [obsKnownActions, obsGuardedActions, List.mem_cons,
    List.not_mem_nil, or_false, not_or] at h
  simp_all [handleOBSCommand]

theorem handleVMixCommand_unknown (cmd : Cmd) (w : AdapterWorld)
    (h : cmd.action ∉ vmixKnownActions) :
    handleVMixCommand cmd w = unknownCase cmd := by
  simp only [vmixKnownActions, vmixGuardedActions, List.mem_cons,
    List.not_mem_nil, or_false, not_or] at h
  simp_all [handleVMixCommand]

theorem handleCasparCGCommand_unknown (cmd : Cmd) (w : CasparWorld)
    (h : cmd.action ∉ casparKnownActions) :
    handleCasparCGCommand cmd w = unknownCase cmd := by
  simp only [casparKnownActions, casparGuardedActions, List.mem_cons,
    List.not_mem_nil, or_false, not_or] at h
  simp_all [handleCasparCGCommand]

theorem handleMeldStudioCommand_unknown (cmd : Cmd) (w : AdapterWorld)
    (h : cmd.action ∉ meldKnownActions) :
    handleMeldStudioCommand cmd w = unknownCase cmd := by
  simp only [meldKnownActions, meldGuardedActions, List.mem_cons,
    List.not_mem_nil, or_false, not_or] at h
  simp_all [handleMeldStudioCommand]

theorem action_ne_of_startsWith (a lit p : String)
    (h : strStartsWith a p = true)
    (hlit : strStartsWith lit p = false) : a ≠ lit := by
  intro e
  rw [e] at h
  rw [h] at hlit
  cases hlit

/-- Counterexample to C3: an action with an entirely unknown namespace
    (`shutdown`), not suspended, carrying both a request id and a response
    channel: routing produces NO effects at all — `handleCommand` matches no
    namespace and falls off the end — instead of the claimed
    `{success:false, error:"Unknown command: shutdown"}` response. -/
theorem c3_unknown_action_counterexample :
    onChannelCommand ⟨false, none, true, false, true, 1⟩
        ⟨"shutdown", [], some "r1", some "resp:1", none⟩ allConnectedWorld =
      ([], ⟨false, none, true, false, true, 1⟩) := by
  rfl

/-- C3 (amended): an unknown operation WITHIN a known namespace is answered
    with `{success:false, error:"Unknown command: <action>"}` (sent even
    when `request_id` is absent) and touches no adapter; but an action whose
    namespace matches none of `obs_`/`vmix_`/`caspar_`/`meld_` (and which is
    not one of the control actions) is silently dropped: no response is
    emitted at all and no adapter is invoked. -/
theorem c3_unknown_action (st : SessionState) (cmd : Cmd) (w : World)
    (hsusp : st.suspended = false) :
    (strStartsWith cmd.action "obs_" = false →
     strStartsWith cmd.action "vmix_" = false →
     strStartsWith cmd.action "caspar_" = false →
     strStartsWith cmd.action "meld_" = false →
     cmd.action ≠ "ping" → cmd.action ≠ "middleware_disable" →
     cmd.action ≠ "middleware_enable" →
     onChannelCommand st cmd w = ([], st)) ∧
    (strStartsWith cmd.action "obs_" = true →
     cmd.action ∉ obsKnownActions →
     onChannelCommand st cmd w = (unknownCase cmd, st)) ∧
    (strStartsWith cmd.action "obs_" = false →
     strStartsWith cmd.action "vmix_" = true →
     cmd.action ∉ vmixKnownActions →
     onChannelCommand st cmd w = (unknownCase cmd, st)) ∧
    (strStartsWith cmd.action "obs_" = false →
     strStartsWith cmd.action "vmix_" = false →
     strStartsWith cmd.action "caspar_" = true →
     cmd.action ∉ casparKnownActions →
     onChannelCommand st cmd w = (unknownCase cmd, st)) ∧
    (strStartsWith cmd.action "obs_" = false →
     strStartsWith cmd.action "vmix_" = false →
     strStartsWith cmd.action "caspar_" = false →
     strStartsWith cmd.action "meld_" = true →
     cmd.action ∉ meldKnownActions →
     onChannelCommand st cmd w = (unknownCase cmd, st)) ∧
    (∀ e ∈ unknownCase cmd, e.isAdapter = false) := by
  refine ⟨?_, ?_, ?_, ?_, ?_, ?_⟩
  · intro h1 h2 h3 h4 hping hd he
    simp [onChannelCommand, handleCommand, hd, he, hping, hsusp, h1, h2, h3, h4]
  · intro hobs hmem
    have hd := action_ne_of_startsWith _ "middleware_disable" _ hobs (by decide)
    have he := action_ne_of_startsWith _ "middleware_enable" _ hobs (by decide)
    have hping := action_ne_of_startsWith _ "ping" _ hobs (by decide)
    simp [onChannelCommand, handleCommand, hd, he, hping, hsusp, hobs,
      handleOBSCommand_unknown cmd w.obs hmem]
  · intro hobs hvmix hmem
    have hd := action_ne_of_startsWith _ "middleware_disable" _ hvmix (by decide)
    have he := action_ne_of_startsWith _ "middleware_enable" _ hvmix (by decide)
    have hping := action_ne_of_startsWith _ "ping" _ hvmix (by decide)
    simp [onChannelCommand, handleCommand, hd, he, hping, hsusp, hobs, hvmix,
      handleVMixCommand_unknown cmd w.vmix hmem]
  · intro hobs hvmix hcaspar hmem
    have hd :=
      action_ne_of_startsWith _ "middleware_disable" _ hcaspar (by decide)
    have he :=
      action_ne_of_startsWith _ "middleware_enable" _ hcaspar (by decide)
    have hping := action_ne_of_startsWith _ "ping" _ hcaspar (by decide)
    simp [onChannelCommand, handleCommand, hd, he, hping, hsusp, hobs, hvmix,
      hcaspar, handleCasparCGCommand_unknown cmd w.caspar hmem]
  · intro hobs hvmix hcaspar hmeld hmem
    have hd := action_ne_of_startsWith _ "middleware_disable" _ hmeld (by decide)
    have he := action_ne_of_startsWith _ "middleware_enable" _ hmeld (by decide)
    have hping := action_ne_of_startsWith _ "ping" _ hmeld (by decide)
    simp [onChannelCommand, handleCommand, hd, he, hping, hsusp, hobs, hvmix,
      hcaspar, hmeld, handleMeldStudioCommand_unknown cmd w.meld hmem]
  · intro e he
    simp only [unknownCase, List.mem_singleton] at he
    subst he
    rfl

/-- Witness for C3: an unknown operation inside the `obs_` namespace is
    answered with the naming error; a foreign action is dropped. -/
theorem c3_unknown_action_witness :
    onChannelCommand ⟨false, none, true, false, true, 1⟩
        ⟨"obs_frobnicate", [], some "r2", some "resp:2", none⟩
        allConnectedWorld =
      ([Effect.respond (some "resp:2")
          ⟨some "r2", false, some "Unknown command: obs_frobnicate"⟩],
        ⟨false, none, true, false, true, 1⟩) := by
  have h := (c3_unknown_action ⟨false, none, true, false, true, 1⟩
    ⟨"obs_frobnicate", [], some "r2", some "resp:2", none⟩
    allConnectedWorld rfl).2.1 (by decide) (by decide)
  rw [h]
  rfl

/-! ## C4: request_id-absent behaviour -/

theorem guardedOps_throw_no_respond (device msg : String) (cmd : Cmd)
    (w : AdapterWorld) (ops : List String) (m : String)
    (hconn : w.connected = true) (hthrow : w.opThrows = some m)
    (hrid : cmd.request_id = none) :
    ∀ e ∈ guardedOps device msg cmd w ops, e.isRespond = false := by
  intro e he
  cases ops with
  | nil => simp [guardedOps, hconn, hthrow, hrid] at he
  | cons o rest =>
    simp [guardedOps, hconn, hthrow, hrid] at he
    subst he
    rfl

theorem guardedOps_ok_emits (device msg : String) (cmd : Cmd)
    (w : AdapterWorld) (ops : List String)
    (hconn : w.connected = true) (hok : w.opThrows = none) :
    Effect.respond cmd.response_channel ⟨cmd.request_id, true, none⟩ ∈
      guardedOps device msg cmd w ops := by
  simp [guardedOps, hconn, hok]

theorem casparOp_throw_no_respond (cmd : Cmd) (w : CasparWorld) (op m : String)
    (hconn : w.connected = true) (hthrow : w.callResult = Except.error m)
    (hrid : cmd.request_id = none) :
    ∀ e ∈ casparOp cmd w op, e.isRespond = false := by
  intro e he
  simp [casparOp, hconn, hthrow, hrid] at he
  subst he
  rfl

theorem casparOp_ok_emits (cmd : Cmd) (w : CasparWorld) (op : String)
    (f : Frame) (hconn : w.connected = true)
    (hok : w.callResult = Except.ok f) :
    Effect.respond cmd.response_channel
        ⟨cmd.request_id, casparSuccess f, none⟩ ∈ casparOp cmd w op := by
  simp [casparOp, hconn, hok]

theorem handleOBSCommand_guarded (cmd : Cmd) (w : AdapterWorld)
    (h : cmd.action ∈ obsGuardedActions) :
    ∃ ops : List String,
      handleOBSCommand cmd w =
        guardedOps "obs" "OBS WebSocket not connected" cmd w ops := by
  simp only [obsGuardedActions, List.mem_cons, List.not_mem_nil,
    or_false] at h
  rcases h with h|h|h|h|h|h|h|h|h|h|h|h|h|h|h|h|h|h|h
  · exact ⟨["getScenes"], by simp [handleOBSCommand, h]⟩
  · exact ⟨["getCurrentScene"], by simp [handleOBSCommand, h]⟩
  · exact ⟨["setScene"], by simp [handleOBSCommand, h]⟩
  · exact ⟨["setScene"], by simp [handleOBSCommand, h]⟩
  · exact ⟨["getSources"], by simp [handleOBSCommand, h]⟩
  · exact ⟨["getSceneItemId", "setSourceVisibility"], by simp [handleOBSCommand, h]⟩
  · exact ⟨["getSceneItemId", "setSourceVisibility"], by simp [handleOBSCommand, h]⟩
  · exact ⟨["setSourceVisibility"], by simp [handleOBSCommand, h]⟩
  · exact ⟨["toggleSource"], by simp [handleOBSCommand, h]⟩
  · exact ⟨["setText"], by simp [handleOBSCommand, h]⟩
  · exact ⟨["refreshBrowser"], by simp [handleOBSCommand, h]⟩
  · exact ⟨["setBrowserUrl"], by simp [handleOBSCommand, h]⟩
  · exact ⟨["startStreaming"], by simp [handleOBSCommand, h]⟩
  · exact ⟨["stopStreaming"], by simp [handleOBSCommand, h]⟩
  · exact ⟨["startRecording"], by simp [handleOBSCommand, h]⟩
  · exact ⟨["stopRecording"], by simp [handleOBSCommand, h]⟩
  · exact ⟨["getStreamStatus"], by simp [handleOBSCommand, h]⟩
  · exact ⟨["getStreamStatus"], by simp [handleOBSCommand, h]⟩
  · exact ⟨["getRecordStatus"], by simp [handleOBSCommand, h]⟩

theorem handleVMixCommand_guarded (cmd : Cmd) (w : AdapterWorld)
    (h : cmd.action ∈ vmixGuardedActions) :
    ∃ ops : List String,
      handleVMixCommand cmd w =
        guardedOps "vmix" "vMix not connected" cmd w ops := by
  simp only [vmixGuardedActions, List.mem_cons, List.not_mem_nil,
    or_false] at h
  rcases h with h|h|h|h|h|h|h|h|h|h|h
  · exact ⟨["getState"], by simp [handleVMixCommand, h]⟩
  · exact ⟨["showOverlay"], by simp [handleVMixCommand, h]⟩
  · exact ⟨["hideOverlay"], by simp [handleVMixCommand, h]⟩
  · exact ⟨["transition"], by simp [handleVMixCommand, h]⟩
  · exact ⟨["setText"], by simp [handleVMixCommand, h]⟩
  · exact ⟨["cut"], by simp [handleVMixCommand, h]⟩
  · exact ⟨["fade"], by simp [handleVMixCommand, h]⟩
  · exact ⟨["startStreaming"], by simp [handleVMixCommand, h]⟩
  · exact ⟨["stopStreaming"], by simp [handleVMixCommand, h]⟩
  · exact ⟨["startRecording"], by simp [handleVMixCommand, h]⟩
  · exact ⟨["stopRecording"], by simp [handleVMixCommand, h]⟩

theorem handleMeldStudioCommand_guarded (cmd : Cmd) (w : AdapterWorld)
    (h : cmd.action ∈ meldGuardedActions) :
    ∃ ops : List String,
      handleMeldStudioCommand cmd w =
        guardedOps "meldstudio" "MeldStudio not connected" cmd w ops := by
  simp only [meldGuardedActions, List.mem_cons, List.not_mem_nil,
    or_false] at h
  rcases h with h|h|h|h|h|h|h|h|h|h|h|h|h|h|h|h|h|h|h|h|h|h
  · exact ⟨["getSession"], by simp [handleMeldStudioCommand, h]⟩
  · exact ⟨["showScene"], by simp [handleMeldStudioCommand, h]⟩
  · exact ⟨["stageScene"], by simp [handleMeldStudioCommand, h]⟩
  · exact ⟨["showStaged"], by simp [handleMeldStudioCommand, h]⟩
  · exact ⟨["toggleLayer"], by simp [handleMeldStudioCommand, h]⟩
  · exact ⟨["setProperty"], by simp [handleMeldStudioCommand, h]⟩
  · exact ⟨["toggleEffect"], by simp [handleMeldStudioCommand, h]⟩
  · exact ⟨["toggleMute"], by simp [handleMeldStudioCommand, h]⟩
  · exact ⟨["setGain"], by simp [handleMeldStudioCommand, h]⟩
  · exact ⟨["startStreaming"], by simp [handleMeldStudioCommand, h]⟩
  · exact ⟨["stopStreaming"], by simp [handleMeldStudioCommand, h]⟩
  · exact ⟨["startRecording"], by simp [handleMeldStudioCommand, h]⟩
  · exact ⟨["stopRecording"], by simp [handleMeldStudioCommand, h]⟩
  · exact ⟨["toggleVirtualCamera"], by simp [handleMeldStudioCommand, h]⟩
  · exact ⟨["mediaPlay"], by simp [handleMeldStudioCommand, h]⟩
  · exact ⟨["mediaPause"], by simp [handleMeldStudioCommand, h]⟩
  · exact ⟨["mediaSeek"], by simp [handleMeldStudioCommand, h]⟩
  · exact ⟨["screenshot"], by simp [handleMeldStudioCommand, h]⟩
  · exact ⟨["recordClip"], by simp [handleMeldStudioCommand, h]⟩
  · exact ⟨["showReplay"], by simp [handleMeldStudioCommand, h]⟩
  · exact ⟨["dismissReplay"], by simp [handleMeldStudioCommand, h]⟩
  · exact ⟨["sendStreamEvent"], by simp [handleMeldStudioCommand, h]⟩

theorem handleCasparCGCommand_guarded (cmd : Cmd) (w : CasparWorld)
    (h : cmd.action ∈ casparGuardedActions) :
    ∃ op : String, handleCasparCGCommand cmd w = casparOp cmd w op := by
  simp only [casparGuardedActions, List.mem_cons, List.not_mem_nil,
    or_false] at h
  rcases h with h|h|h|h|h|h|h|h|h|h|h
  · exact ⟨"play", by simp [handleCasparCGCommand, h]⟩
  · exact ⟨"stop", by simp [handleCasparCGCommand, h]⟩
  · exact ⟨"load", by simp [handleCasparCGCommand, h]⟩
  · exact ⟨"loadBg", by simp [handleCasparCGCommand, h]⟩
  · exact ⟨"clear", by simp [handleCasparCGCommand, h]⟩
  · exact ⟨"cgAdd", by simp [handleCasparCGCommand, h]⟩
  · exact ⟨"cgUpdate", by simp [handleCasparCGCommand, h]⟩
  · exact ⟨"cgStop", by simp [handleCasparCGCommand, h]⟩
  · exact ⟨"cgNext", by simp [handleCasparCGCommand, h]⟩
  · exact ⟨"cgClear", by simp [handleCasparCGCommand, h]⟩
  · exact ⟨"cgPlay", by simp [handleCasparCGCommand, h]⟩

/-- Counterexample to C4: a command WITHOUT `request_id` (`obs_switch_scene`,
    with a response channel, adapter connected, operation succeeding) still
    emits a response envelope — with its `request_id` field simply unset —
    although the claim says no response is emitted regardless of outcome.
    Only the catch path checks for a request id. -/
theorem c4_fire_and_forget_counterexample :
    onChannelCommand ⟨false, none, true, false, true, 1⟩
        ⟨"obs_switch_scene", [], none, some "resp:4", none⟩
        allConnectedWorld =
      ([Effect.adapter "obs" "setScene",
        Effect.respond (some "resp:4") ⟨none, true, none⟩],
       ⟨false, none, true, false, true, 1⟩) := by
  rfl

/-- C4 (amended): when `request_id` is absent, only the responses that would
    come from the exception-catch path (a rejecting adapter operation) are
    suppressed — in all four handlers; completing operations and the
    unknown-operation default still emit a response envelope whose
    `request_id` field is simply absent. -/
theorem c4_fire_and_forget :
    (∀ (cmd : Cmd) (w : AdapterWorld) (m : String),
      cmd.request_id = none → cmd.action ∈ obsGuardedActions →
      w.connected = true → w.opThrows = some m →
      ∀ e ∈ handleOBSCommand cmd w, e.isRespond = false) ∧
    (∀ (cmd : Cmd) (w : AdapterWorld) (m : String),
      cmd.request_id = none → cmd.action ∈ vmixGuardedActions →
      w.connected = true → w.opThrows = some m →
      ∀ e ∈ handleVMixCommand cmd w, e.isRespond = false) ∧
    (∀ (cmd : Cmd) (w : AdapterWorld) (m : String),
      cmd.request_id = none → cmd.action ∈ meldGuardedActions →
      w.connected = true → w.opThrows = some m →
      ∀ e ∈ handleMeldStudioCommand cmd w, e.isRespond = false) ∧
    (∀ (cmd : Cmd) (w : CasparWorld) (m : String),
      cmd.request_id = none → cmd.action ∈ casparGuardedActions →
      w.connected = true → w.callResult = Except.error m →
      ∀ e ∈ handleCasparCGCommand cmd w, e.isRespond = false) ∧
    (∀ (cmd : Cmd) (w : AdapterWorld),
      cmd.request_id = none → cmd.action ∈ obsGuardedActions →
      w.connected = true → w.opThrows = none →
      Effect.respond cmd.response_channel ⟨none, true, none⟩ ∈
        handleOBSCommand cmd w) ∧
    (∀ (cmd : Cmd) (w : AdapterWorld),
      cmd.request_id = none → cmd.action ∈ vmixGuardedActions →
      w.connected = true → w.opThrows = none →
      Effect.respond cmd.response_channel ⟨none, true, none⟩ ∈
        handleVMixCommand cmd w) ∧
    (∀ (cmd : Cmd) (w : AdapterWorld),
      cmd.request_id = none → cmd.action ∈ meldGuardedActions →
      w.connected = true → w.opThrows = none →
      Effect.respond cmd.response_channel ⟨none, true, none⟩ ∈
        handleMeldStudioCommand cmd w) ∧
    (∀ (cmd : Cmd) (w : CasparWorld) (f : Frame),
      cmd.request_id = none → cmd.action ∈ casparGuardedActions →
      w.connected = true → w.callResult = Except.ok f →
      Effect.respond cmd.response_channel ⟨none, casparSuccess f, none⟩ ∈
        handleCasparCGCommand cmd w) ∧
    (∀ cmd : Cmd, cmd.request_id = none →
      Effect.respond cmd.response_channel
        ⟨none, false, some ("Unknown command: " ++ cmd.action)⟩ ∈
        unknownCase cmd) := by
  refine ⟨?_, ?_, ?_, ?_, ?_, ?_, ?_, ?_, ?_⟩
  · intro cmd w m hrid hmem hconn hthrow
    obtain ⟨ops, hops⟩ := handleOBSCommand_guarded cmd w hmem
    rw [hops]
    exact guardedOps_throw_no_respond _ _ _ _ _ _ hconn hthrow hrid
  · intro cmd w m hrid hmem hconn hthrow
    obtain ⟨ops, hops⟩ := handleVMixCommand_guarded cmd w hmem
    rw [hops]
    exact guardedOps_throw_no_respond _ _ _ _ _ _ hconn hthrow hrid
  · intro cmd w m hrid hmem hconn hthrow
    obtain ⟨ops, hops⟩ := handleMeldStudioCommand_guarded cmd w hmem
    rw [hops]
    exact guardedOps_throw_no_respond _ _ _ _ _ _ hconn hthrow hrid
  · intro cmd w m hrid hmem hconn hthrow
    obtain ⟨op, hop⟩ := handleCasparCGCommand_guarded cmd w hmem
    rw [hop]
    exact casparOp_throw_no_respond _ _ _ _ hconn hthrow hrid
  · intro cmd w hrid hmem hconn hok
    obtain ⟨ops, hops⟩ := handleOBSCommand_guarded cmd w hmem
    rw [hops]
    have h := guardedOps_ok_emits "obs" "OBS WebSocket not connected"
      cmd w ops hconn hok
    rw [hrid] at h
    exact h
  · intro cmd w hrid hmem hconn hok
    obtain ⟨ops, hops⟩ := handleVMixCommand_guarded cmd w hmem
    rw [hops]
    have h := guardedOps_ok_emits "vmix" "vMix not connected"
      cmd w ops hconn hok
    rw [hrid] at h
    exact h
  · intro cmd w hrid hmem hconn hok
    obtain ⟨ops, hops⟩ := handleMeldStudioCommand_guarded cmd w hmem
    rw [hops]
    have h := guardedOps_ok_emits "meldstudio" "MeldStudio not connected"
      cmd w ops hconn hok
    rw [hrid] at h
    exact h
  · intro cmd w f hrid hmem hconn hok
    obtain ⟨op, hop⟩ := handleCasparCGCommand_guarded cmd w hmem
    rw [hop]
    have h := casparOp_ok_emits cmd w op f hconn hok
    rw [hrid] at h
    exact h
  · intro cmd hrid
    simp [unknownCase, hrid]

/-- Witness for C4: a throwing `obs_set_text` without request id yields no
    response; the same command with the operation succeeding emits a
    response with `request_id` unset. -/
theorem c4_fire_and_forget_witness :
    (∀ e ∈ handleOBSCommand ⟨"obs_set_text", [], none, some "resp:5", none⟩
        ⟨true, (true, none), some "boom"⟩, e.isRespond = false) ∧
    Effect.respond (some "resp:5") ⟨none, true, none⟩ ∈
      handleOBSCommand ⟨"obs_set_text", [], none, some "resp:5", none⟩
        ⟨true, (true, none), none⟩ :=
  ⟨c4_fire_and_forget.1 ⟨"obs_set_text", [], none, some "resp:5", none⟩
      ⟨true, (true, none), some "boom"⟩ "boom" rfl (by decide) rfl rfl,
   c4_fire_and_forget.2.2.2.2.1 ⟨"obs_set_text", [], none, some "resp:5", none⟩
      ⟨true, (true, none), none⟩ rfl (by decide) rfl rfl⟩

/-! ## C6: playout status code mapping -/

/-- C6. For `caspar_play` on a connected playout device, a call resolving
    with a decoded frame is answered with
    `success = (200 <= code && code < 300)`; a decoded non-2xx frame is a
    normal response (a `respond` effect, not a rejection). Concretely,
    decoding the wire bytes `201 PLAY OK\r\n` gives code 201 and
    `success = true`, and `400 ERROR\r\n` gives code 400 and
    `success = false` while still decoding to a frame. -/
theorem c6_status_mapping :
    (∀ (cmd : Cmd) (w : CasparWorld) (f : Frame),
      cmd.action = "caspar_play" → w.connected = true →
      w.callResult = Except.ok f →
      handleCasparCGCommand cmd w =
        [Effect.adapter "casparcg" "play",
         Effect.respond cmd.response_channel
           ⟨cmd.request_id, casparSuccess f, none⟩]) ∧
    (∀ (f : Frame) (c : Int), f.code = some c →
      (casparSuccess f = true ↔ (200 ≤ c ∧ c < 300))) ∧
    processBuffer ("201 PLAY OK".toList ++ crlf) =
      (some ⟨some 201, "PLAY OK".toList⟩, []) ∧
    processBuffer ("400 ERROR".toList ++ crlf) =
      (some ⟨some 400, "ERROR".toList⟩, []) ∧
    casparSuccess ⟨some 201, "PLAY OK".toList⟩ = true ∧
    casparSuccess ⟨some 400, "ERROR".toList⟩ = false := by
  refine ⟨?_, ?_, by decide, by decide, by decide, by decide⟩
  · intro cmd w f hact hconn hok
    simp [handleCasparCGCommand, hact, casparOp, hconn, hok]
  · intro f c h
    simp [casparSuccess, h, Bool.and_eq_true, decide_eq_true_eq]

/-- Witness for C6: a `caspar_play` answered by the decoded `201 PLAY OK`
    frame yields a success response; by `400 ERROR` a failure response. -/
theorem c6_status_mapping_witness :
    handleCasparCGCommand ⟨"caspar_play", [], some "r6", some "resp:6", none⟩
        ⟨true, (true, none), Except.ok ⟨some 201, "PLAY OK".toList⟩⟩ =
      [Effect.adapter "casparcg" "play",
       Effect.respond (some "resp:6") ⟨some "r6", true, none⟩] ∧
    handleCasparCGCommand ⟨"caspar_play", [], some "r6", some "resp:6", none⟩
        ⟨true, (true, none), Except.ok ⟨some 400, "ERROR".toList⟩⟩ =
      [Effect.adapter "casparcg" "play",
       Effect.respond (some "resp:6") ⟨some "r6", false, none⟩] := by
  constructor
  · rw [c6_status_mapping.1 ⟨"caspar_play", [], some "r6", some "resp:6", none⟩
      ⟨true, (true, none), Except.ok ⟨some 201, "PLAY OK".toList⟩⟩
      ⟨some 201, "PLAY OK".toList⟩ rfl rfl rfl]
    rfl
  · rw [c6_status_mapping.1 ⟨"caspar_play", [], some "r6", some "resp:6", none⟩
      ⟨true, (true, none), Except.ok ⟨some 400, "ERROR".toList⟩⟩
      ⟨some 400, "ERROR".toList⟩ rfl rfl rfl]
    rfl

/-! ## C9: suspend/resume timers and subscription -/

theorem handleResume_not_suspended (st : SessionState)
    (h : st.suspended = false) : handleResume st = st := by
  simp [handleResume, h]

theorem handleResume_suspended_false (st : SessionState) :
    (handleResume st).suspended = false := by
  by_cases h : st.suspended = true
  · by_cases hc : st.channelAlive = true <;> simp [handleResume, h, hc]
  · simp only [Bool.not_eq_true] at h
    simp [handleResume, h]

/-- C9. Entering Suspended (via the explicit `middleware_disable` command or
    a heartbeat reporting `active=false`) stops the heartbeat, keeps the
    channel subscription (and subscription count) untouched, and starts the
    60 s retry-authenticate loop; returning to Active (via the explicit
    `middleware_enable` command or a retry observing `active=true`) stops
    the retry loop and, with the channel still alive, restarts the heartbeat
    without re-subscribing. -/
theorem c9_suspend_resume :
    retryIntervalMs = 60000 ∧ heartbeatIntervalMs = 30000 ∧
    (∀ (st : SessionState) (reason : String), st.suspended = false →
      handleSuspend st reason =
        { st with
          suspended := true, suspendReason := some reason,
          heartbeatOn := false, retryOn := true }) ∧
    (∀ (st : SessionState) (cmd : Cmd) (w : World),
      cmd.action = "middleware_disable" →
      (onChannelCommand st cmd w).2 =
        handleSuspend st
          ((paramStr cmd.params "reason").getD "disabled_by_platform")) ∧
    (∀ (st : SessionState) (r : Option String),
      onHeartbeatResult st false (some false) r =
        handleSuspend st (r.getD "disabled_by_platform")) ∧
    (∀ st : SessionState, st.suspended = true → st.channelAlive = true →
      handleResume st =
        { st with
          suspended := false, suspendReason := none,
          retryOn := false, heartbeatOn := true }) ∧
    (∀ (st : SessionState) (cmd : Cmd) (w : World),
      cmd.action = "middleware_enable" →
      (onChannelCommand st cmd w).2 = handleResume st) ∧
    (∀ (st : SessionState) (reason : String), st.suspended = true →
      onRetryTick st true true reason = handleResume st) := by
  refine ⟨rfl, rfl, ?_, ?_, ?_, ?_, ?_, ?_⟩
  · intro st reason h
    simp [handleSuspend, h]
  · intro st cmd w hact
    simp only [onChannelCommand, if_pos hact]
  · intro st r
    rfl
  · intro st hs hc
    simp [handleResume, hs, hc]
  · intro st cmd w hact
    have hne : cmd.action ≠ "middleware_disable" := by
      rw [hact]; decide
    simp only [onChannelCommand, if_neg hne, if_pos hact]
  · intro st reason hs
    have h1 : authStateStep st true true reason = handleResume st := by
      simp [authStateStep, hs]
    simp only [onRetryTick, h1]
    rw [handleResume_not_suspended _ (handleResume_suspended_false st)]
    simp

/-- Witness for C9 at a concrete active and a concrete suspended session. -/
theorem c9_suspend_resume_witness :
    handleSuspend ⟨false, none, true, false, true, 1⟩ "disabled_by_platform" =
      ⟨true, some "disabled_by_platform", false, true, true, 1⟩ ∧
    handleResume ⟨true, some "disabled_by_platform", false, true, true, 1⟩ =
      ⟨false, none, true, false, true, 1⟩ := by
  constructor
  · exact c9_suspend_resume.2.2.1 ⟨false, none, true, false, true, 1⟩
      "disabled_by_platform" rfl
  · exact c9_suspend_resume.2.2.2.2.2.1
      ⟨true, some "disabled_by_platform", false, true, true, 1⟩ rfl rfl
